import Mathlib

/-!
# Verification of the generation-job orchestration core

Shallow embedding of the client-side job-lifecycle engine of the
kiberone-generation-sdxl-turbo frontend: the zustand store
(`app/frontend/store/app-store.ts`), the generation controller hook
(`useGenerationController`, `app/frontend/components/result-panel.tsx`)
and the 401 redirect helper (`app/frontend/lib/auth-redirect.ts`).

Asynchronous handlers are split at their `await` points: the synchronous
prefix of a handler is one Lean function, and the continuation that runs
once the remote response arrives is another, taking the response as an
explicit argument.  Remote calls and the redirect-to-login collaborator
are recorded as an explicit effect list instead of being performed.
-/

namespace KiberGen

/-- `JobStatus` from `app-store.ts`. -/
inductive JobStatus where
  | idle
  | queued
  | running
  | done
  | jobError
  | cancelled
deriving DecidableEq, Repr

/-- `status === "queued" || status === "running"`, the busy test the
controller repeats everywhere (`isGenerating`). -/
def JobStatus.isBusy : JobStatus → Bool
  | .queued => true
  | .running => true
  | _ => false

/-- `Quality` from the controller: `"fast" | "normal" | "high"`. -/
inductive Quality where
  | fast
  | normal
  | high
deriving DecidableEq, Repr

/-- `ResultItem` from `app-store.ts`. -/
structure ResultItem where
  id : String
  url : String
  relativeUrl : Option String := none
  seed : Option Int := none
  quality : Quality := .normal
  degraded : Bool := false
  downloadToken : Option String := none
deriving DecidableEq, Repr

/-- `BaseImage` from `app-store.ts` (the `placeholderSlot` field is
display-only and never read by the controller). -/
structure BaseImage where
  id : String
  url : String
deriving DecidableEq, Repr

/-- `PendingGeneration` from the controller. -/
structure PendingGeneration where
  sketchDataUrl : String
  canvasDataUrl : Option String := none
  quality : Quality := .normal
  seed : Option Int := none
deriving DecidableEq, Repr

/-- The store state (`app-store.ts`) together with the controller's
mutable refs (`pendingGenerationRef`, `cancellationRequestedRef`), which
are part of the orchestration state even though they live outside the
store.  `jobMessage : Option String` models the optional `message`
argument of `setJobStatus`. -/
structure AppState where
  prompt : String := ""
  baseImage : Option BaseImage := none
  results : List ResultItem := []
  currentResult : Option ResultItem := none
  jobStatus : JobStatus := .idle
  jobMessage : Option String := none
  activeJobId : Option String := none
  lastSketchDataUrl : Option String := none
  lastCanvasDataUrl : Option String := none
  clearSketchVersion : Nat := 0
  pendingGeneration : Option PendingGeneration := none
  cancellationRequested : Bool := false
deriving DecidableEq, Repr

/-- `setJobStatus(status, message)` — always overwrites both fields. -/
def setJobStatus (s : AppState) (st : JobStatus) (msg : Option String) : AppState :=
  { s with jobStatus := st, jobMessage := msg }

/-- `setActiveJobId(jobId)`. -/
def setActiveJobId (s : AppState) (jobId : Option String) : AppState :=
  { s with activeJobId := jobId }

/-- JavaScript `history.slice(-5)`: the last five elements (all of them
when there are fewer than five). -/
def sliceLastFive (l : List ResultItem) : List ResultItem :=
  l.drop (l.length - 5)

/-- `pushResult(result)` from `app-store.ts`: filter out entries with the
same id, append, keep the last five, and make the pushed item current. -/
def pushResult (s : AppState) (r : ResultItem) : AppState :=
  let filtered := s.results.filter (fun item => item.id ≠ r.id)
  let history := filtered ++ [r]
  let trimmed := sliceLastFive history
  { s with results := trimmed, currentResult := some r }

/-- `removeLatestResult()` from `app-store.ts`. -/
def removeLatestResult (s : AppState) : AppState :=
  if s.results.isEmpty then s
  else
    let updated := s.results.dropLast
    { s with results := updated, currentResult := updated.getLast? }

/-- `setLastSketch(sketchDataUrl, canvasDataUrl)`. -/
def setLastSketch (s : AppState) (sk : Option String) (cv : Option String) : AppState :=
  { s with lastSketchDataUrl := sk, lastCanvasDataUrl := cv }

/-- `requestClearSketch()`. -/
def requestClearSketch (s : AppState) : AppState :=
  { s with clearSketchVersion := s.clearSketchVersion + 1 }

/-- `setBaseImage(image)`. -/
def setBaseImage (s : AppState) (img : Option BaseImage) : AppState :=
  { s with baseImage := img }

/-- Reference definition of `push` taken word-for-word from the spec
(§4.4): "remove any existing entry with the same id, append, truncate to
the most recent 5, set as current".  "Most recent 5" is expressed by
reversing, taking five, and reversing back. -/
def pushSpecHistory (history : List ResultItem) (r : ResultItem) : List ResultItem :=
  (((history.filter (fun item => item.id ≠ r.id)) ++ [r]).reverse.take 5).reverse

/-- Ambient values the controller closes over: `apiOrigin` (from
`getApiOrigin()`, may be `null`) and the localized
`t("ui.errors.base_required")` message. -/
structure Ctx where
  apiOrigin : Option String := none
  baseRequiredMsg : String := "base_required"
deriving DecidableEq, Repr

/-- The observable side effects a handler performs: remote calls and the
redirect-to-login collaborator. -/
inductive Effect where
  | createJob (p : PendingGeneration)
  | cancelJob (jobId : String)
  | pollStatus (jobId : String)
  | undoCall
  | applyCall (resultUrl : String)
  | redirectToLogin
deriving DecidableEq, Repr

/-- The shared relative-to-absolute URL step of both delivery paths:
`relativeUrl.startsWith("http") ? relativeUrl : apiOrigin ?
`${apiOrigin}${relativeUrl}` : relativeUrl`. -/
def absolutize (apiOrigin : Option String) (rel : String) : String :=
  if rel.startsWith "http" then rel
  else
    match apiOrigin with
    | some o => o ++ rel
    | none => rel

/-- Parsed push-channel messages (`ws.onmessage`); `malformed` stands for
a payload that fails `JSON.parse` and is only logged. -/
inductive WsMessage where
  | statusMsg (value : String)
  | resultMsg (jobId : String) (resultUrl : Option String) (seed : Option Int)
      (qualityEffective : Option Quality) (qualityDegraded : Bool)
      (downloadToken : Option String)
  | errorMsg (message : Option String)
  | cancelledMsg
  | malformed
deriving DecidableEq, Repr

/-- The `ws.onmessage` handler.  Note that the terminal branches carry no
job-id guard: `result`, `error` and `cancelled` messages are applied
unconditionally. -/
def wsHandle (ctx : Ctx) (s : AppState) : WsMessage → AppState
  | .statusMsg v =>
      if v = "queued" then setJobStatus s .queued none
      else if v = "running" then setJobStatus s .running none
      else s
  | .resultMsg jobId resultUrl seed qualityEffective qualityDegraded downloadToken =>
      let relativeUrl := resultUrl.getD ""
      let absoluteUrl := absolutize ctx.apiOrigin relativeUrl
      let s1 := pushResult s
        { id := jobId
          url := absoluteUrl
          relativeUrl := some relativeUrl
          seed := seed
          quality := qualityEffective.getD .normal
          degraded := qualityDegraded
          downloadToken := downloadToken }
      setActiveJobId (setJobStatus s1 .done none) none
  | .errorMsg message =>
      setActiveJobId (setJobStatus s .jobError message) none
  | .cancelledMsg =>
      setActiveJobId (setJobStatus s .cancelled none) none
  | .malformed => s

/-- Outcomes of the `POST /generate` fetch awaited by
`executeGeneration`: 401, non-2xx (with the optional
`error.message` of the envelope), a `status:"skipped"` body, a 2xx body
with an optional `job_id` and the `quality_degraded` flag, or a thrown
network `Error` with its message. -/
inductive GenerateResponse where
  | unauthorized
  | httpErr (message : Option String)
  | skipped
  | success (jobId : Option String) (qualityDegraded : Bool)
  | netErr (message : String)
deriving DecidableEq, Repr

/-- The synchronous prefix of `executeGeneration(payload)` up to the
`fetch`: the base-image guard, then `setJobStatus("queued")`,
`setLastSketch(...)` and the dispatch of the create-job call. -/
def executeGenerationStart (ctx : Ctx) (s : AppState) (p : PendingGeneration) :
    AppState × List Effect :=
  match s.baseImage with
  | none => (setJobStatus s .jobError (some ctx.baseRequiredMsg), [])
  | some _ =>
      let s1 := setJobStatus s .queued none
      let s2 := setLastSketch s1 (some p.sketchDataUrl) p.canvasDataUrl
      (s2, [Effect.createJob p])

/-- The continuation of `executeGeneration` once the `/generate`
response arrives. -/
def executeGenerationResume (s : AppState) : GenerateResponse → AppState × List Effect
  | .unauthorized =>
      ({ s with jobStatus := .idle, jobMessage := none, activeJobId := none,
                pendingGeneration := none, cancellationRequested := false },
       [Effect.redirectToLogin])
  | .httpErr message =>
      (setActiveJobId (setJobStatus s .jobError (some (message.getD "Generation failed"))) none,
       [])
  | .skipped =>
      (setActiveJobId (setJobStatus s .idle none) none, [])
  | .success jobId qualityDegraded =>
      let s1 := setActiveJobId s jobId
      (if qualityDegraded then setJobStatus s1 .queued none else s1, [])
  | .netErr message =>
      (setActiveJobId (setJobStatus s .jobError (some message)) none, [])

/-- Outcomes of the `POST /generate/cancel` fetch. -/
inductive CancelResponse where
  | unauthorized
  | httpErr (message : Option String)
  | ok
  | netErr (message : String)
deriving DecidableEq, Repr

/-- The synchronous prefix of `requestCancellation()`: the
`!activeJobId || cancellationRequestedRef.current` guard, then the flag
set and the cancel call. -/
def requestCancellationStart (s : AppState) : AppState × List Effect :=
  match s.activeJobId with
  | none => (s, [])
  | some jobId =>
      if s.cancellationRequested then (s, [])
      else ({ s with cancellationRequested := true }, [Effect.cancelJob jobId])

/-- The continuation of `requestCancellation` once the cancel response
arrives. -/
def requestCancellationResume (s : AppState) : CancelResponse → AppState × List Effect
  | .unauthorized =>
      ({ s with jobStatus := .idle, jobMessage := none, activeJobId := none,
                pendingGeneration := none, cancellationRequested := false },
       [Effect.redirectToLogin])
  | .httpErr message =>
      ({ setJobStatus s .jobError (some (message.getD "Cancel failed")) with
          pendingGeneration := none, cancellationRequested := false }, [])
  | .ok => (s, [])
  | .netErr message =>
      ({ setJobStatus s .jobError (some message) with
          pendingGeneration := none, cancellationRequested := false }, [])

/-- `submitGeneration(sketchDataUrl, canvasDataUrl, quality, seed)` up to
its first suspension: the empty-sketch guard, the base-image guard, the
busy branch (buffer the payload, start a cancellation) and the idle
branch (clear the pending slot, start `executeGeneration`). -/
def submitGeneration (ctx : Ctx) (s : AppState) (sketchDataUrl : String)
    (canvasDataUrl : Option String) (quality : Quality) (seed : Option Int) :
    AppState × List Effect :=
  if sketchDataUrl = "" then (s, [])
  else
    match s.baseImage with
    | none => (setJobStatus s .jobError (some ctx.baseRequiredMsg), [])
    | some _ =>
        let payload : PendingGeneration :=
          { sketchDataUrl := sketchDataUrl
            canvasDataUrl := canvasDataUrl
            quality := quality
            seed := seed }
        if s.jobStatus.isBusy then
          requestCancellationStart { s with pendingGeneration := some payload }
        else
          executeGenerationStart ctx { s with pendingGeneration := none } payload

/-- The status-change effect (the `useEffect` keyed on `jobStatus`): when
status is non-busy the cancellation flag is cleared, and on a busy →
non-busy edge any pending generation is consumed and dispatched through
`executeGeneration`.  `previous` is `lastJobStatusRef.current`. -/
def statusChangeEffect (ctx : Ctx) (previous : JobStatus) (s : AppState) :
    AppState × List Effect :=
  let s1 := if s.jobStatus.isBusy then s else { s with cancellationRequested := false }
  if previous.isBusy && !s.jobStatus.isBusy then
    match s1.pendingGeneration with
    | some pending => executeGenerationStart ctx { s1 with pendingGeneration := none } pending
    | none => (s1, [])
  else (s1, [])

/-- One tick of the polling fallback: the guards of the polling
`useEffect` (`activeJobId` set, status busy) plus the in-tick
`ws.readyState === OPEN` skip.  Returns the job id queried, or `none`
when no network call is made. -/
def pollTick (s : AppState) (wsOpen : Bool) : Option String :=
  match s.activeJobId with
  | none => none
  | some jobId =>
      if s.jobStatus.isBusy then
        if wsOpen then none else some jobId
      else none

/-- The parsed JSON body of a 2xx `GET /generate/status/{id}` response. -/
structure PollData where
  jobId : String
  status : Option String := none
  resultUrl : Option String := none
  seed : Option Int := none
  qualityEffective : Option Quality := none
  qualityDegraded : Bool := false
  downloadToken : Option String := none
  errorMessage : Option String := none
deriving DecidableEq, Repr

/-- Outcomes of one polling fetch. -/
inductive PollResponse where
  | unauthorized
  | httpErr
  | badJson
  | ok (data : PollData)
  | netErr
deriving DecidableEq, Repr

/-- The continuation of one `poll()` call after its fetch resolves.
Unlike the push path, this handler carries the
`data.job_id !== activeJobId` guard. -/
def pollResume (ctx : Ctx) (s : AppState) : PollResponse → AppState × List Effect
  | .unauthorized =>
      ({ s with jobStatus := .idle, jobMessage := none, activeJobId := none,
                pendingGeneration := none, cancellationRequested := false },
       [Effect.redirectToLogin])
  | .httpErr => (s, [])
  | .badJson => (s, [])
  | .ok data =>
      if s.activeJobId ≠ some data.jobId then (s, [])
      else
        match data.status, data.resultUrl with
        | some "done", some relativeUrl =>
            let absoluteUrl := absolutize ctx.apiOrigin relativeUrl
            let s1 := pushResult s
              { id := data.jobId
                url := absoluteUrl
                relativeUrl := some relativeUrl
                seed := data.seed
                quality := data.qualityEffective.getD .normal
                degraded := data.qualityDegraded
                downloadToken := data.downloadToken }
            (setActiveJobId (setJobStatus s1 .done none) none, [])
        | some "error", _ =>
            let message :=
              match data.errorMessage with
              | some m => if m.length > 0 then m else "Generation failed"
              | none => "Generation failed"
            (setActiveJobId (setJobStatus s .jobError (some message)) none, [])
        | some "cancelled", _ =>
            (setActiveJobId (setJobStatus s .cancelled none) none, [])
        | some "queued", _ => (setJobStatus s .queued none, [])
        | some "running", _ => (setJobStatus s .running none, [])
        | _, _ => (s, [])
  | .netErr => (s, [])

/-- Outcomes of the `POST /history/undo` fetch; `ok` carries the
`result_id` field of the body. -/
inductive UndoResponse where
  | unauthorized
  | httpErr (message : Option String)
  | ok (resultId : String)
  | netErr (message : String)
deriving DecidableEq, Repr

/-- The continuation of `undo()` after its fetch resolves.  On success
the code drops the newest entry, then points the current result at the
entry matching the response's `result_id` when present, falling back to
the remaining last entry (`?? updatedResults[updatedResults.length - 1]
?? null`), and finally sets status `done`. -/
def undoResume (s : AppState) : UndoResponse → AppState × List Effect
  | .unauthorized => (setJobStatus s .idle none, [Effect.redirectToLogin])
  | .httpErr message =>
      (setJobStatus s .jobError (some (message.getD "Undo failed")), [])
  | .ok resultId =>
      let s1 := removeLatestResult s
      let next :=
        match s1.results.find? (fun item => item.id = resultId) with
        | some item => some item
        | none => s1.results.getLast?
      (setJobStatus { s1 with currentResult := next } .done none, [])
  | .netErr message =>
      (setJobStatus s .jobError (some message), [])

/-- Outcomes of the `POST /canvas/apply-result` fetch; `ok` carries the
`image_id` and `url` fields of the body. -/
inductive ApplyResponse where
  | unauthorized
  | httpErr (message : Option String)
  | ok (imageId : String) (url : String)
  | netErr (message : String)
deriving DecidableEq, Repr

/-- The continuation of `applyResultToCanvas()` after its fetch
resolves. -/
def applyResume (s : AppState) : ApplyResponse → AppState × List Effect
  | .unauthorized => (setJobStatus s .idle none, [Effect.redirectToLogin])
  | .httpErr message =>
      (setJobStatus s .jobError (some (message.getD "Apply failed")), [])
  | .ok imageId url =>
      let s1 := setBaseImage s (some { id := imageId, url := url })
      (setJobStatus (requestClearSketch s1) .idle none, [])
  | .netErr message =>
      (setJobStatus s .jobError (some message), [])

/-- JavaScript truthiness of a `string | null` value: falsy when `null`
or the empty string. -/
def strTruthy : Option String → Bool
  | none => false
  | some v => v ≠ ""

/-- JavaScript truthiness of a `number | undefined` seed: falsy when
absent or zero (`!currentResult?.seed`). -/
def seedTruthy : Option Int → Bool
  | none => false
  | some v => v ≠ 0

/-- `regenerate()`: replay the last sketch/canvas payloads at `normal`
quality, guarded by `!lastSketchDataUrl`. -/
def regenerate (ctx : Ctx) (s : AppState) : AppState × List Effect :=
  if strTruthy s.lastSketchDataUrl then
    submitGeneration ctx s (s.lastSketchDataUrl.getD "") s.lastCanvasDataUrl .normal none
  else (s, [])

/-- `improve()`: replay the last payloads at `high` quality with the
current result's seed, guarded by
`!lastSketchDataUrl || !currentResult?.seed` (a falsiness check, so a
seed equal to `0` also blocks the submission). -/
def improve (ctx : Ctx) (s : AppState) : AppState × List Effect :=
  let currentSeed := s.currentResult.bind (fun r => r.seed)
  if strTruthy s.lastSketchDataUrl && seedTruthy currentSeed then
    submitGeneration ctx s (s.lastSketchDataUrl.getD "") s.lastCanvasDataUrl .high currentSeed
  else (s, [])

/-- Number of cancel calls in an effect list. -/
def cancelCount (effs : List Effect) : Nat :=
  (effs.filter (fun e => match e with | .cancelJob _ => true | _ => false)).length

/-- The payloads of the create-job calls in an effect list, in order. -/
def createPayloads (effs : List Effect) : List PendingGeneration :=
  effs.filterMap (fun e => match e with | .createJob p => some p | _ => none)

/-- True exactly for the terminal push-channel messages
(`result`, `error`, `cancelled`). -/
def WsMessage.isTerminal : WsMessage → Bool
  | .resultMsg _ _ _ _ _ _ => true
  | .errorMsg _ => true
  | .cancelledMsg => true
  | _ => false

/-- Run a sequence of `submitGeneration` calls (one per payload, passing
that payload's fields), accumulating states and effects. -/
def runSubmits (ctx : Ctx) (s : AppState) : List PendingGeneration → AppState × List Effect
  | [] => (s, [])
  | p :: ps =>
      let step := submitGeneration ctx s p.sketchDataUrl p.canvasDataUrl p.quality p.seed
      let rest := runSubmits ctx step.1 ps
      (rest.1, step.2 ++ rest.2)

/-- One whole busy period as observed by the effect layer: a burst of
submissions while busy, then the response to the cancel call issued by
the first of them, then the status-change effect fired by any status
change that response caused, then a terminal push-channel event, then
the status-change effect again (which replays any pending
generation). -/
def busyPeriodCancelTrace (ctx : Ctx) (s : AppState) (ps : List PendingGeneration)
    (resp : CancelResponse) (e : WsMessage) : AppState × List Effect :=
  let afterSubmits := runSubmits ctx s ps
  let afterCancel := requestCancellationResume afterSubmits.1 resp
  let afterCancelEffect := statusChangeEffect ctx afterSubmits.1.jobStatus afterCancel.1
  let afterTerminal := wsHandle ctx afterCancelEffect.1 e
  let afterEffect := statusChangeEffect ctx afterCancelEffect.1.jobStatus afterTerminal
  (afterEffect.1, afterSubmits.2 ++ afterCancel.2 ++ afterCancelEffect.2 ++ afterEffect.2)

/-- The claimed store invariant, as a decidable test: the active job id
is set exactly when the status is busy. -/
def jobInvariant (s : AppState) : Bool :=
  s.activeJobId.isSome = s.jobStatus.isBusy

/-- The state produced by the full 401 reset shared by the submit,
cancel and poll paths. -/
def fullAuthReset (s : AppState) : AppState :=
  { s with jobStatus := .idle, jobMessage := none, activeJobId := none,
           pendingGeneration := none, cancellationRequested := false }

/-! ### Concrete states used by counterexamples and witnesses -/

/-- A concrete ambient context. -/
def exCtx : Ctx := { apiOrigin := some "http://api.example", baseRequiredMsg := "base required" }

/-- A concrete base image. -/
def exBase : BaseImage := { id := "img-1", url := "/img/1.png" }

/-- A concrete generation payload. -/
def exPayload1 : PendingGeneration := { sketchDataUrl := "data:image/png;base64,AAA" }

/-- A second concrete generation payload. -/
def exPayload2 : PendingGeneration := { sketchDataUrl := "data:image/png;base64,BBB" }

/-- An idle state with a base image designated. -/
def exIdleState : AppState := { baseImage := some exBase }

/-- A busy state: job `job-1` is running. -/
def exBusyState : AppState :=
  { baseImage := some exBase, jobStatus := .running, activeJobId := some "job-1" }

/-- A state after a terminal event: status `done`, active job already
cleared. -/
def exDoneState : AppState := { baseImage := some exBase, jobStatus := .done }

/-- A state with no base image designated. -/
def exNoBaseState : AppState := {}

/-- A busy state with an active job, a buffered pending generation and
the cancellation flag set. -/
def exJobState : AppState :=
  { baseImage := some exBase, jobStatus := .running, activeJobId := some "job-9",
    pendingGeneration := some exPayload1, cancellationRequested := true }

/-- A concrete result item with a given id. -/
def exItem (i : String) : ResultItem := { id := i, url := "/r/" ++ i ++ ".png" }

/-- A state whose history holds three results `a`, `b`, `c` with `c`
current. -/
def exHistState : AppState :=
  { results := [exItem "a", exItem "b", exItem "c"], currentResult := some (exItem "c") }

/-- A state whose current result carries seed `0` and which has a last
sketch to replay. -/
def exSeedZeroState : AppState :=
  { baseImage := some exBase, lastSketchDataUrl := some "data:image/png;base64,CCC",
    currentResult := some { id := "x", url := "/r/x.png", seed := some 0 } }

/-! ### Helper lemmas -/

/-- Trimming to the last five elements is the same as reversing, taking
five, and reversing back. -/
lemma sliceLastFive_eq_reverse_take (l : List ResultItem) :
    sliceLastFive l = (l.reverse.take 5).reverse := by
  rw [sliceLastFive, List.take_reverse, List.reverse_reverse]

/-- Filtering a list strictly shrinks it as soon as one element fails
the predicate. -/
lemma length_filter_lt_of_mem {α : Type} (p : α → Bool) (l : List α) (x : α)
    (hx : x ∈ l) (hpx : p x = false) : (l.filter p).length < l.length := by
  induction l with
  | nil => cases hx
  | cons a l ih =>
    rcases List.mem_cons.mp hx with h | h
    · subst h
      simp only [List.filter_cons, hpx, Bool.false_eq_true, if_false, List.length_cons]
      calc (l.filter p).length ≤ l.length := l.length_filter_le p
        _ < l.length + 1 := Nat.lt_succ_self _
    · by_cases hpa : p a = true
      · simpa [List.filter_cons, hpa] using Nat.succ_lt_succ (ih h)
      · simp only [Bool.not_eq_true] at hpa
        simp only [List.filter_cons, hpa, Bool.false_eq_true, if_false, List.length_cons]
        calc (l.filter p).length ≤ l.length := l.length_filter_le p
          _ < l.length + 1 := Nat.lt_succ_self _

/-! ### Claims -/

/-- **C4.** `pushResult` coincides with the spec's reference definition
(drop same-id entries, append, keep the most recent five, make the
pushed item current); hence the history never exceeds five entries, and
pushing an item whose id already occurs never grows the history. -/
theorem pushResult_matches_reference (s : AppState) (r : ResultItem) :
    pushResult s r = { s with results := pushSpecHistory s.results r, currentResult := some r }
    ∧ (pushResult s r).results.length ≤ 5
    ∧ ((∃ item ∈ s.results, item.id = r.id) →
        (pushResult s r).results.length ≤ s.results.length) := by
  refine ⟨?_, ?_, ?_⟩
  · simp only [pushResult, pushSpecHistory, sliceLastFive_eq_reverse_take]
  · simp only [pushResult, sliceLastFive, List.length_drop]
    omega
  · rintro ⟨item, hmem, hid⟩
    have hfilter :
        ((s.results.filter (fun it => it.id ≠ r.id)).length < s.results.length) := by
      refine length_filter_lt_of_mem _ _ item hmem ?_
      simp [hid]
    simp only [pushResult, sliceLastFive, List.length_drop, List.length_append,
      List.length_cons, List.length_nil]
    omega

/-- **C4 witness.** The duplicate-id clause applied to a concrete
history. -/
theorem pushResult_matches_reference_witness :
    (pushResult exHistState (exItem "b")).results.length ≤ exHistState.results.length :=
  (pushResult_matches_reference exHistState (exItem "b")).2.2
    ⟨exItem "b", by decide, by decide⟩

/-- **C9.** `submitGeneration` with an empty sketch payload returns
immediately: the state is unchanged in every field and no remote or
cancellation call is issued, even when no base image is designated. -/
theorem submitGeneration_empty_sketch_noop (ctx : Ctx) (s : AppState)
    (canvasDataUrl : Option String) (quality : Quality) (seed : Option Int) :
    submitGeneration ctx s "" canvasDataUrl quality seed = (s, []) := by
  simp [submitGeneration]

/-- **C10.** The improve action's seed guard is a falsiness check: when
the current result's seed equals `0`, `improve` performs no state change
and issues no remote call. -/
theorem improve_seed_zero_noop (ctx : Ctx) (s : AppState)
    (h : s.currentResult.bind (fun item => item.seed) = some 0) :
    improve ctx s = (s, []) := by
  simp [improve, h, seedTruthy]

/-- **C10 witness.** `improve` on a concrete state whose current result
has seed `0`. -/
theorem improve_seed_zero_noop_witness :
    improve exCtx exSeedZeroState = (exSeedZeroState, []) :=
  improve_seed_zero_noop exCtx exSeedZeroState (by decide)

/-- **C7.** A poll status query is issued exactly when an active job id
is set, the status is busy, and the push channel is not open; in every
other state the tick makes no network call. -/
theorem pollTick_guard_iff (s : AppState) (wsOpen : Bool) (jobId : String) :
    pollTick s wsOpen = some jobId ↔
      s.activeJobId = some jobId ∧ s.jobStatus.isBusy = true ∧ wsOpen = false := by
  cases hjob : s.activeJobId with
  | none => simp [pollTick, hjob]
  | some j =>
    cases hbusy : s.jobStatus.isBusy with
    | false => simp [pollTick, hjob, hbusy]
    | true =>
      cases wsOpen with
      | false => simp [pollTick, hjob, hbusy]
      | true => simp [pollTick, hjob, hbusy]

/-- **C1 counterexample.** The invariant "activeJobId is non-null iff
status is busy" does not hold during every step of submit: starting from
an idle state that satisfies it, the synchronous prefix of
`executeGeneration` sets status `queued` while the active job id is
still null, and this state is observable while the create-job fetch is
in flight. -/
theorem activeJob_invariant_broken_midsubmit :
    jobInvariant exIdleState = true
    ∧ jobInvariant (executeGenerationStart exCtx exIdleState exPayload1).1 = false := by
  decide

/-- **C1 amended.** The invariant holds after every completed
terminal-event handler on either delivery path — the push-channel
terminal branches, and the poll terminal branches that pass the job-id
guard (all of which clear the job id while setting a non-busy status) —
and after a submit acknowledgment that carries a job id when the state
was still busy; only the in-flight submit window (and an acknowledgment
without a job id) escapes it. -/
theorem activeJob_invariant_terminal_and_ack (ctx : Ctx) :
    (∀ (s : AppState) (e : WsMessage), e.isTerminal = true →
        jobInvariant (wsHandle ctx s e) = true)
    ∧ (∀ (s : AppState) (data : PollData), s.activeJobId = some data.jobId →
        (data.status = some "error" ∨ data.status = some "cancelled"
          ∨ (data.status = some "done" ∧ data.resultUrl.isSome = true)) →
        jobInvariant (pollResume ctx s (.ok data)).1 = true)
    ∧ (∀ (s : AppState) (jobId : String) (degraded : Bool), s.jobStatus.isBusy = true →
        jobInvariant (executeGenerationResume s (.success (some jobId) degraded)).1 = true) := by
  refine ⟨?_, ?_, ?_⟩
  · intro s e he
    cases e with
    | statusMsg v => simp [WsMessage.isTerminal] at he
    | resultMsg jobId resultUrl seed qe qd dt =>
        simp [wsHandle, jobInvariant, setActiveJobId, setJobStatus, pushResult,
          JobStatus.isBusy]
    | errorMsg m =>
        simp [wsHandle, jobInvariant, setActiveJobId, setJobStatus, JobStatus.isBusy]
    | cancelledMsg =>
        simp [wsHandle, jobInvariant, setActiveJobId, setJobStatus, JobStatus.isBusy]
    | malformed => simp [WsMessage.isTerminal] at he
  · intro s data hjob hterm
    rcases hterm with herr | hcan | ⟨hdone, hurl⟩
    · simp [pollResume, hjob, herr, jobInvariant, setActiveJobId, setJobStatus,
        JobStatus.isBusy]
    · simp [pollResume, hjob, hcan, jobInvariant, setActiveJobId, setJobStatus,
        JobStatus.isBusy]
    · rcases Option.isSome_iff_exists.mp hurl with ⟨u, hu⟩
      simp [pollResume, hjob, hdone, hu, jobInvariant, setActiveJobId, setJobStatus,
        pushResult, JobStatus.isBusy]
  · intro s jobId degraded hbusy
    cases degraded with
    | false =>
        simp [executeGenerationResume, jobInvariant, setActiveJobId, hbusy]
    | true =>
        simp [executeGenerationResume, jobInvariant, setActiveJobId, setJobStatus,
          JobStatus.isBusy]

/-- **C1 amended witness.** All three clauses applied at concrete
states: a push-channel `cancelled` event, a matching poll `cancelled`
response, and a busy-time acknowledgment carrying `job-2`. -/
theorem activeJob_invariant_terminal_and_ack_witness :
    jobInvariant (wsHandle exCtx exBusyState .cancelledMsg) = true
    ∧ jobInvariant (pollResume exCtx exBusyState
        (.ok { jobId := "job-1", status := some "cancelled" })).1 = true
    ∧ jobInvariant (executeGenerationResume exBusyState (.success (some "job-2") false)).1 = true :=
  ⟨(activeJob_invariant_terminal_and_ack exCtx).1 exBusyState .cancelledMsg rfl,
   (activeJob_invariant_terminal_and_ack exCtx).2.1 exBusyState
     { jobId := "job-1", status := some "cancelled" } rfl (Or.inr (Or.inl rfl)),
   (activeJob_invariant_terminal_and_ack exCtx).2.2 exBusyState "job-2" false rfl⟩

/-- **C3 counterexample.** On the push-channel path a duplicate terminal
event is not a no-op: with the active job id already null and status
`done`, a `cancelled` message still changes the state (status becomes
`cancelled`). -/
theorem ws_duplicate_terminal_changes_state :
    exDoneState.activeJobId = none
    ∧ wsHandle exCtx exDoneState .cancelledMsg ≠ exDoneState
    ∧ (wsHandle exCtx exDoneState .cancelledMsg).jobStatus = .cancelled := by
  decide

/-- **C3 amended.** Duplicate terminal events are no-ops on the polling
path only: the poll continuation discards any response whose job id does
not match the current active job id (in particular whenever the active
job id is null).  The push-channel handler carries no such guard. -/
theorem poll_duplicate_terminal_noop (ctx : Ctx) (s : AppState) (data : PollData)
    (h : s.activeJobId ≠ some data.jobId) :
    pollResume ctx s (.ok data) = (s, []) := by
  simp [pollResume, h]

/-- **C3 amended witness.** A stale `done` response for `job-1` while
the active job is `job-9` is discarded. -/
theorem poll_duplicate_terminal_noop_witness :
    pollResume exCtx exJobState
      (.ok { jobId := "job-1", status := some "done", resultUrl := some "/r/1.png" })
      = (exJobState, []) :=
  poll_duplicate_terminal_noop exCtx exJobState
    { jobId := "job-1", status := some "done", resultUrl := some "/r/1.png" } (by decide)

/-- **C5 counterexample.** Not every submission attempt made without a
base image fails with an error status: an attempt whose sketch payload
is empty returns before the base-image guard, leaving the state
unchanged (status stays `idle`, not `error`) and issuing no call. -/
theorem submit_no_base_without_error :
    exNoBaseState.baseImage = none
    ∧ submitGeneration exCtx exNoBaseState "" none .normal none = (exNoBaseState, [])
    ∧ exNoBaseState.jobStatus ≠ .jobError := by
  decide

/-- **C5 amended.** Every submission attempt carrying a non-empty sketch
payload while no base image is designated fails immediately with status
`error` and the localized base-required message, issuing no remote call;
the direct `executeGeneration` entry point enforces the same guard
unconditionally. -/
theorem submit_requires_base_image (ctx : Ctx) (s : AppState) (sketchDataUrl : String)
    (canvasDataUrl : Option String) (quality : Quality) (seed : Option Int)
    (hsk : ¬ sketchDataUrl = "") (hbase : s.baseImage = none) :
    submitGeneration ctx s sketchDataUrl canvasDataUrl quality seed
      = (setJobStatus s .jobError (some ctx.baseRequiredMsg), [])
    ∧ ∀ p : PendingGeneration,
        executeGenerationStart ctx s p
          = (setJobStatus s .jobError (some ctx.baseRequiredMsg), []) := by
  constructor
  · simp [submitGeneration, hsk, hbase]
  · intro p
    simp [executeGenerationStart, hbase]

/-- **C5 amended witness.** A concrete non-empty-sketch attempt without
a base image. -/
theorem submit_requires_base_image_witness :
    submitGeneration exCtx exNoBaseState "data:image/png;base64,AAA" none .normal none
      = (setJobStatus exNoBaseState .jobError (some exCtx.baseRequiredMsg), []) :=
  (submit_requires_base_image exCtx exNoBaseState "data:image/png;base64,AAA" none .normal none
    (by decide) (by decide)).1

/-- **C6 counterexample.** The 401 handling is not identical on every
call path: after a 401 on the undo path, the active job id, the pending
generation and the cancellation flag are all left as they were instead
of being cleared. -/
theorem undo_unauthorized_keeps_job_state :
    (undoResume exJobState .unauthorized).1.activeJobId = some "job-9"
    ∧ (undoResume exJobState .unauthorized).1.pendingGeneration = some exPayload1
    ∧ (undoResume exJobState .unauthorized).1.cancellationRequested = true := by
  decide

/-- **C6 amended.** On a 401 every path resets status to `idle` (never
`error`) and invokes the redirect collaborator; the submit, cancel and
poll paths additionally clear the active job id, discard the pending
generation and reset the cancellation flag, while the undo and apply
paths change the status only, leaving those fields untouched. -/
theorem unauthorized_paths (ctx : Ctx) (s : AppState) :
    executeGenerationResume s .unauthorized = (fullAuthReset s, [Effect.redirectToLogin])
    ∧ requestCancellationResume s .unauthorized = (fullAuthReset s, [Effect.redirectToLogin])
    ∧ pollResume ctx s .unauthorized = (fullAuthReset s, [Effect.redirectToLogin])
    ∧ undoResume s .unauthorized = (setJobStatus s .idle none, [Effect.redirectToLogin])
    ∧ applyResume s .unauthorized = (setJobStatus s .idle none, [Effect.redirectToLogin]) := by
  refine ⟨?_, ?_, ?_, ?_, ?_⟩ <;>
    simp [executeGenerationResume, requestCancellationResume, pollResume, undoResume,
      applyResume, fullAuthReset, setJobStatus]

/-- **C8 counterexample.** On a successful undo the current result does
not always become the remaining last entry: with history `[a, b, c]` and
a response naming `a`, the history becomes `[a, b]` but the current
result is set to `a`, not to the remaining last entry `b`. -/
theorem undo_success_current_not_last :
    (undoResume exHistState (.ok "a")).1.results = [exItem "a", exItem "b"]
    ∧ (undoResume exHistState (.ok "a")).1.currentResult = some (exItem "a")
    ∧ (undoResume exHistState (.ok "a")).1.results.getLast? = some (exItem "b")
    ∧ some (exItem "a") ≠ some (exItem "b") := by
  decide

/-- Building a payload back from its four fields gives the payload. -/
lemma PendingGeneration.mk_fields (p : PendingGeneration) :
    ({ sketchDataUrl := p.sketchDataUrl, canvasDataUrl := p.canvasDataUrl,
       quality := p.quality, seed := p.seed } : PendingGeneration) = p := rfl

/-- A submission made while busy with a non-empty sketch and a base
image buffers the payload and requests at most one cancellation,
depending on the `cancellationRequested` flag. -/
lemma submitGeneration_busy (ctx : Ctx) (s : AppState) (p : PendingGeneration)
    (j : String) (b : BaseImage)
    (hbusy : s.jobStatus.isBusy = true) (hjob : s.activeJobId = some j)
    (hbase : s.baseImage = some b) (hp : ¬ p.sketchDataUrl = "") :
    submitGeneration ctx s p.sketchDataUrl p.canvasDataUrl p.quality p.seed =
      ({ s with pendingGeneration := some p, cancellationRequested := true },
       if s.cancellationRequested then [] else [Effect.cancelJob j]) := by
  cases hflag : s.cancellationRequested with
  | false =>
      simp [submitGeneration, hp, hbase, hbusy, requestCancellationStart, hjob,
        PendingGeneration.mk_fields, hflag]
  | true =>
      simp [submitGeneration, hp, hbase, hbusy, requestCancellationStart, hjob,
        PendingGeneration.mk_fields, hflag]

/-- Unfolding equation for `runSubmits` on a non-empty list. -/
lemma runSubmits_cons (ctx : Ctx) (s : AppState) (p : PendingGeneration)
    (ps : List PendingGeneration) :
    runSubmits ctx s (p :: ps) =
      ((runSubmits ctx
          (submitGeneration ctx s p.sketchDataUrl p.canvasDataUrl p.quality p.seed).1 ps).1,
       (submitGeneration ctx s p.sketchDataUrl p.canvasDataUrl p.quality p.seed).2 ++
       (runSubmits ctx
          (submitGeneration ctx s p.sketchDataUrl p.canvasDataUrl p.quality p.seed).1 ps).2) :=
  rfl

/-- A non-empty burst of submissions during one busy period buffers the
last payload, sets the cancellation flag, and issues exactly one cancel
call — none at all when a cancellation was already requested. -/
lemma runSubmits_busy (ctx : Ctx) (j : String) (b : BaseImage) (pLast : PendingGeneration) :
    ∀ (ps : List PendingGeneration) (s : AppState),
      s.jobStatus.isBusy = true → s.activeJobId = some j → s.baseImage = some b →
      (∀ p ∈ ps, ¬ p.sketchDataUrl = "") → ps.getLast? = some pLast →
      runSubmits ctx s ps =
        ({ s with pendingGeneration := some pLast, cancellationRequested := true },
         if s.cancellationRequested then [] else [Effect.cancelJob j]) := by
  intro ps
  induction ps with
  | nil => intro s _ _ _ _ hlast; simp at hlast
  | cons p ps ih =>
    intro s hbusy hjob hbase hsk hlast
    have hp : ¬ p.sketchDataUrl = "" := hsk p (List.mem_cons_self p ps)
    cases ps with
    | nil =>
        have hpl : p = pLast := by simpa using hlast
        subst hpl
        simp only [runSubmits, submitGeneration_busy ctx s p j b hbusy hjob hbase hp,
          List.append_nil]
    | cons q qs =>
        have hlast2 : (q :: qs).getLast? = some pLast := by
          simpa [List.getLast?_cons_cons] using hlast
        have hsk2 : ∀ r ∈ q :: qs, ¬ r.sketchDataUrl = "" := by
          intro r hr; exact hsk r (List.mem_cons_of_mem p hr)
        have hstep := submitGeneration_busy ctx s p j b hbusy hjob hbase hp
        have hrec := ih { s with pendingGeneration := some p, cancellationRequested := true }
          hbusy hjob hbase hsk2 hlast2
        rw [runSubmits_cons, hstep]
        simp only [hrec]
        simp

/-- Every terminal push-channel event leaves a non-busy status and does
not touch the pending slot, the cancellation flag or the base image. -/
lemma wsHandle_terminal_fields (ctx : Ctx) (s : AppState) (e : WsMessage)
    (he : e.isTerminal = true) :
    (wsHandle ctx s e).jobStatus.isBusy = false
    ∧ (wsHandle ctx s e).pendingGeneration = s.pendingGeneration
    ∧ (wsHandle ctx s e).cancellationRequested = s.cancellationRequested
    ∧ (wsHandle ctx s e).baseImage = s.baseImage := by
  cases e <;>
    simp [WsMessage.isTerminal] at he <;>
    simp [wsHandle, setJobStatus, setActiveJobId, pushResult, JobStatus.isBusy]

/-- On a busy → non-busy edge with a buffered payload and a base image
the status-change effect dispatches exactly that payload. -/
lemma statusChangeEffect_replay (ctx : Ctx) (previous : JobStatus) (s : AppState)
    (p : PendingGeneration) (b : BaseImage)
    (hprev : previous.isBusy = true) (hnow : s.jobStatus.isBusy = false)
    (hpend : s.pendingGeneration = some p) (hbase : s.baseImage = some b) :
    (statusChangeEffect ctx previous s).2 = [Effect.createJob p] := by
  simp [statusChangeEffect, hnow, hprev, hpend, executeGenerationStart, hbase]

/-- While the state is still busy the status-change effect does
nothing. -/
lemma statusChangeEffect_busy (ctx : Ctx) (previous : JobStatus) (s : AppState)
    (hnow : s.jobStatus.isBusy = true) :
    statusChangeEffect ctx previous s = (s, []) := by
  simp [statusChangeEffect, hnow]

/-- Without a buffered payload the status-change effect issues no
call. -/
lemma statusChangeEffect_no_pending (ctx : Ctx) (previous : JobStatus) (s : AppState)
    (hpend : s.pendingGeneration = none) :
    (statusChangeEffect ctx previous s).2 = [] := by
  unfold statusChangeEffect
  by_cases hb : s.jobStatus.isBusy = true
  · simp [hb, hpend]
  · simp only [Bool.not_eq_true] at hb
    simp [hb, hpend]

/-- A 2xx cancel response changes nothing. -/
lemma requestCancellationResume_ok (s : AppState) :
    requestCancellationResume s .ok = (s, []) := rfl

/-- **C2 counterexample.** A busy period with one submission whose
cancel call fails with a non-2xx response ends with one cancel call but
zero create-job calls: the failed-cancel branch discards the buffered
payload, so no create-job call follows the terminal event, refuting
"exactly one create-job call after the busy job reaches a terminal
status". -/
theorem busy_period_failed_cancel_drops_pending :
    cancelCount
        (busyPeriodCancelTrace exCtx exBusyState [exPayload1] (.httpErr none) .cancelledMsg).2
      = 1
    ∧ createPayloads
        (busyPeriodCancelTrace exCtx exBusyState [exPayload1] (.httpErr none) .cancelledMsg).2
      = [] := by
  decide

/-- **C2 amended.** During one busy period with at least one
submission, exactly one cancel call is issued (repeats are suppressed by
the cancellation flag).  When the cancel call succeeds, exactly one
create-job call is dispatched once the busy job reaches a terminal
event, carrying the payload of the last submission of the period; when
the cancel call fails (non-2xx), the buffered payload is discarded and
no create-job call follows. -/
theorem busy_period_cancel_outcome (ctx : Ctx) (s : AppState) (j : String)
    (b : BaseImage) (ps : List PendingGeneration) (pLast : PendingGeneration) (e : WsMessage)
    (msg : Option String)
    (hbusy : s.jobStatus.isBusy = true) (hjob : s.activeJobId = some j)
    (hflag : s.cancellationRequested = false) (hbase : s.baseImage = some b)
    (hsk : ∀ p ∈ ps, ¬ p.sketchDataUrl = "") (hlast : ps.getLast? = some pLast)
    (hterm : e.isTerminal = true) :
    (cancelCount (busyPeriodCancelTrace ctx s ps .ok e).2 = 1
      ∧ createPayloads (busyPeriodCancelTrace ctx s ps .ok e).2 = [pLast])
    ∧ (cancelCount (busyPeriodCancelTrace ctx s ps (.httpErr msg) e).2 = 1
      ∧ createPayloads (busyPeriodCancelTrace ctx s ps (.httpErr msg) e).2 = []) := by
  have hrun := runSubmits_busy ctx j b pLast ps s hbusy hjob hbase hsk hlast
  rw [hflag] at hrun
  simp only [Bool.false_eq_true, if_false] at hrun
  set s1 : AppState := { s with pendingGeneration := some pLast, cancellationRequested := true }
    with hs1
  have hs1busy : s1.jobStatus.isBusy = true := by rw [hs1]; exact hbusy
  constructor
  · have hskip := statusChangeEffect_busy ctx s1.jobStatus s1 hs1busy
    have hfields := wsHandle_terminal_fields ctx s1 e hterm
    have hreplay := statusChangeEffect_replay ctx s1.jobStatus (wsHandle ctx s1 e) pLast b
      hs1busy hfields.1
      (by rw [hfields.2.1, hs1]) (by rw [hfields.2.2.2, hs1]; exact hbase)
    simp only [busyPeriodCancelTrace, hrun, requestCancellationResume_ok, hskip, hreplay]
    simp [cancelCount, createPayloads]
  · set s2 : AppState :=
      { setJobStatus s1 .jobError (some (msg.getD "Cancel failed")) with
        pendingGeneration := none, cancellationRequested := false } with hs2
    have hcancel : requestCancellationResume s1 (.httpErr msg) = (s2, []) := rfl
    have hs2pend : s2.pendingGeneration = none := by rw [hs2]
    have hcancelEffect := statusChangeEffect_no_pending ctx s1.jobStatus s2 hs2pend
    have hmid : (statusChangeEffect ctx s1.jobStatus s2).1.pendingGeneration = none := by
      unfold statusChangeEffect
      by_cases hb : s2.jobStatus.isBusy = true
      · simp [hb, hs2pend]
      · simp only [Bool.not_eq_true] at hb
        simp [hb, hs2pend]
    have hfields := wsHandle_terminal_fields ctx (statusChangeEffect ctx s1.jobStatus s2).1
      e hterm
    have hfinal := statusChangeEffect_no_pending ctx
      (statusChangeEffect ctx s1.jobStatus s2).1.jobStatus
      (wsHandle ctx (statusChangeEffect ctx s1.jobStatus s2).1 e)
      (by rw [hfields.2.1]; exact hmid)
    simp only [busyPeriodCancelTrace, hrun, hcancel, hcancelEffect, hfinal]
    simp [cancelCount, createPayloads, hcancelEffect, hfinal]

/-- **C2 amended witness.** Two submissions while `job-1` runs: with a
2xx cancel response and a `cancelled` event, one cancel call and one
create-job call with the second payload; with a failed cancel response,
one cancel call and no create-job call. -/
theorem busy_period_cancel_outcome_witness :
    (cancelCount (busyPeriodCancelTrace exCtx exBusyState [exPayload1, exPayload2]
        .ok .cancelledMsg).2 = 1
      ∧ createPayloads (busyPeriodCancelTrace exCtx exBusyState [exPayload1, exPayload2]
          .ok .cancelledMsg).2 = [exPayload2])
    ∧ (cancelCount (busyPeriodCancelTrace exCtx exBusyState [exPayload1, exPayload2]
        (.httpErr none) .cancelledMsg).2 = 1
      ∧ createPayloads (busyPeriodCancelTrace exCtx exBusyState [exPayload1, exPayload2]
          (.httpErr none) .cancelledMsg).2 = []) :=
  busy_period_cancel_outcome exCtx exBusyState "job-1" exBase
    [exPayload1, exPayload2] exPayload2 .cancelledMsg none rfl rfl rfl rfl
    (by decide) (by decide) rfl

/-- **C8 amended.** On a successful undo the newest history entry is
removed, status becomes `done`, and the current result becomes the
remaining entry whose id matches the response's `result_id` when one
exists, otherwise the remaining last entry (or null when the history is
then empty); on failure (non-2xx or thrown) status becomes `error` and
the history and current result are unchanged. -/
theorem undo_resume_behaviour (s : AppState) (resultId : String)
    (message : Option String) (errText : String) :
    ((undoResume s (.ok resultId)).1.results = s.results.dropLast
      ∧ (undoResume s (.ok resultId)).1.currentResult =
          (match (s.results.dropLast).find? (fun item => item.id = resultId) with
           | some item => some item
           | none => (s.results.dropLast).getLast?)
      ∧ (undoResume s (.ok resultId)).1.jobStatus = .done)
    ∧ ((undoResume s (.httpErr message)).1.jobStatus = .jobError
      ∧ (undoResume s (.httpErr message)).1.results = s.results
      ∧ (undoResume s (.httpErr message)).1.currentResult = s.currentResult)
    ∧ ((undoResume s (.netErr errText)).1.jobStatus = .jobError
      ∧ (undoResume s (.netErr errText)).1.results = s.results
      ∧ (undoResume s (.netErr errText)).1.currentResult = s.currentResult) := by
  refine ⟨⟨?_, ?_, ?_⟩, ⟨?_, ?_, ?_⟩, ⟨?_, ?_, ?_⟩⟩ <;>
    cases hres : s.results with
    | nil => simp [undoResume, removeLatestResult, setJobStatus, hres]
    | cons a l =>
        simp [undoResume, removeLatestResult, setJobStatus, hres]

end KiberGen
